import Mathlib

/-!
Verification development for the HRMS interview module
(`interviewModule.js`): interview scheduling, feedback recording,
background-verification updates, filtering, and dashboard statistics.

The JavaScript module mutates a shared in-memory store `db.data`; here the
store is an explicit `DB` value threaded through each operation.  Each
operation returns the post-state together with `Except HRMSError α`
mirroring the JavaScript throw/return behaviour; every mutation that the
JavaScript performs before a throw is reflected in the returned state.
`new Date().toISOString()` is modelled by an explicit `now : String`
argument.  JavaScript truthiness of optional values (`undefined`/`null`/
`""`/`0` are falsy) is modelled by the `jsTruthy…` helpers, and the
`a || b` falsy-coalescing idiom by the `jsOr…` helpers.
-/

/-- Error kinds of the module (spec section 7).  The JavaScript code throws
`Error` values with human-readable messages; the kind records which
validation produced the message. -/
inductive HRMSError where
  | notFound (msg : String)
  | validationError (msg : String)
  | invalidStateTransition (msg : String)
deriving DecidableEq, Repr

/-- JS truthiness of an optional string: `undefined`/`null` and `""` are falsy. -/
def jsTruthyOptStr : Option String → Bool
  | none => false
  | some s => s != ""

/-- JS truthiness of an optional integer: `undefined`/`null` and `0` are falsy. -/
def jsTruthyOptInt : Option Int → Bool
  | none => false
  | some n => n != 0

/-- JS truthiness of an optional id: `undefined`/`null` and `0` are falsy. -/
def jsTruthyOptNat : Option Nat → Bool
  | none => false
  | some n => n != 0

/-- JS `a || b` where `a` is an optional string and `b` a string. -/
def jsOrStr (a : Option String) (b : String) : String :=
  if jsTruthyOptStr a then a.getD "" else b

/-- JS `a || b` on optional integers. -/
def jsOrOptInt (a b : Option Int) : Option Int :=
  if jsTruthyOptInt a then a else b

/-- JS `a || b` on optional ids. -/
def jsOrOptNat (a b : Option Nat) : Option Nat :=
  if jsTruthyOptNat a then a else b

/-- An interviewer entry in `db.data.users` (only the fields the interview
module reads). -/
structure User where
  id : Nat
  name : String
  email : String
deriving DecidableEq, Repr

/-- A candidate in `db.data.candidates` (only the fields the interview
module reads or writes). -/
structure Candidate where
  id : Nat
  name : String
  email : String
  jobPostingId : Nat
  status : String
deriving DecidableEq, Repr

/-- One entry of the `panelFeedback` array passed to `recordInterviewFeedback`. -/
structure PanelFeedbackEntry where
  interviewerId : Nat
  feedback : String
  rating : Option Int
deriving DecidableEq, Repr

/-- An interview record as created by `scheduleInterview`.  In JavaScript a
freshly scheduled interview has no `panelFeedback` property; absence is
modelled as `[]`.  `feedback` is set to `null` at creation and never
written afterwards. -/
structure Interview where
  id : Nat
  candidateId : Nat
  date : String
  time : String
  panel : List Nat
  round : Nat
  type : String
  location : String
  status : String
  feedback : Option String
  rating : Option Int
  remarks : String
  outcome : Option String
  panelFeedback : List PanelFeedbackEntry
  scheduledBy : Option Nat
  scheduledAt : String
  completedAt : Option String
deriving DecidableEq, Repr

/-- A background-verification record in `db.data.backgroundVerifications`. -/
structure BackgroundVerification where
  id : Nat
  candidateId : Nat
  type : String
  agency : Option String
  status : String
  documents : List String
  remarks : String
  initiatedBy : Option Nat
  initiatedAt : String
  completedAt : Option String
  verifiedBy : Option Nat
deriving DecidableEq, Repr

/-- The slice of `db.data` the interview module touches.  `idInterviews`
and `idBackgroundVerifications` are the `_id` counters consulted by
`db.nextId`. -/
structure DB where
  users : List User
  candidates : List Candidate
  interviews : List Interview
  backgroundVerifications : List BackgroundVerification
  idInterviews : Nat
  idBackgroundVerifications : Nat
deriving DecidableEq, Repr

/-- Helper `updateCandidateStatus(candidateId, status)`: finds the first
candidate with the given id and overwrites its `status`; throws
`Candidate not found` (via `getCandidateById`) otherwise.  `db.write()` is
a persistence no-op in this model. -/
def updateCandidateStatus (db : DB) (candidateId : Nat) (status : String) :
    Except HRMSError DB :=
  match db.candidates.find? (fun c => c.id == candidateId) with
  | none => .error (.notFound "Candidate not found")
  | some c =>
    let idx := db.candidates.findIdx (fun c2 => c2.id == candidateId)
    .ok { db with candidates := db.candidates.set idx { c with status := status } }

/-- Argument object of `scheduleInterview`, with the destructuring
defaults of the JavaScript parameter list. -/
structure ScheduleData where
  candidateId : Nat
  date : String
  time : String
  panel : List Nat := []
  round : Nat := 1
  type : String := "technical"
  location : String := "virtual"
deriving DecidableEq, Repr

/-- `scheduleInterview(data)`: validates required fields, candidate
existence and panel-member existence, then appends a new `scheduled`
interview and sets the candidate's status to `interview_scheduled`. -/
def scheduleInterview (db : DB) (now : String) (data : ScheduleData) :
    DB × Except HRMSError Interview :=
  if data.candidateId == 0 || data.date == "" || data.time == "" then
    (db, .error (.validationError "Candidate ID, date, and time are required"))
  else
    match db.candidates.find? (fun c => c.id == data.candidateId) with
    | none => (db, .error (.notFound "Candidate not found"))
    | some _ =>
      match data.panel.find? (fun pid => !(db.users.any (fun u => u.id == pid))) with
      | some pid =>
        (db, .error (.notFound ("Interviewer with ID " ++ toString pid ++ " not found")))
      | none =>
        let newId := db.idInterviews + 1
        let interview : Interview := {
          id := newId
          candidateId := data.candidateId
          date := data.date
          time := data.time
          panel := data.panel
          round := data.round
          type := data.type
          location := data.location
          status := "scheduled"
          feedback := none
          rating := none
          remarks := ""
          outcome := none
          panelFeedback := []
          scheduledBy := none
          scheduledAt := now
          completedAt := none }
        let db1 := { db with interviews := db.interviews ++ [interview],
                             idInterviews := newId }
        match updateCandidateStatus db1 data.candidateId "interview_scheduled" with
        | .error e => (db1, .error e)
        | .ok db2 => (db2, .ok interview)

/-- Query filters of `getInterviews`. -/
structure InterviewFilters where
  status : Option String := none
  date : Option String := none
  interviewerId : Option Nat := none
deriving DecidableEq, Repr

/-- `getInterviews(filters)`: applies each truthy filter in turn (status
string equality, exact date string equality, panel membership); falsy
filter values are skipped. -/
def getInterviews (db : DB) (filters : InterviewFilters) : List Interview :=
  let interviews := db.interviews
  let interviews :=
    if jsTruthyOptStr filters.status then
      interviews.filter (fun i => some i.status == filters.status)
    else interviews
  let interviews :=
    if jsTruthyOptStr filters.date then
      interviews.filter (fun i => some i.date == filters.date)
    else interviews
  let interviews :=
    if jsTruthyOptNat filters.interviewerId then
      interviews.filter (fun i => i.panel.contains (filters.interviewerId.getD 0))
    else interviews
  interviews

/-- Update object of `updateInterview`; a field present in the object
(`!== undefined`) overwrites the stored field, even with a falsy value. -/
structure InterviewUpdates where
  date : Option String := none
  time : Option String := none
  panel : Option (List Nat) := none
  type : Option String := none
  location : Option String := none
  status : Option String := none
deriving DecidableEq, Repr

/-- `updateInterview(interviewId, updates)`: overwrites the allowed fields
(`date`, `time`, `panel`, `type`, `location`, `status`) of the first
interview with the given id with every update value that is present.  No
precondition on the interview's current status is checked. -/
def updateInterview (db : DB) (interviewId : Nat) (u : InterviewUpdates) :
    DB × Except HRMSError Interview :=
  match db.interviews.find? (fun i => i.id == interviewId) with
  | none => (db, .error (.notFound "Interview not found"))
  | some interview =>
    let updatedInterview := { interview with
      date := u.date.getD interview.date
      time := u.time.getD interview.time
      panel := u.panel.getD interview.panel
      type := u.type.getD interview.type
      location := u.location.getD interview.location
      status := u.status.getD interview.status }
    let idx := db.interviews.findIdx (fun i => i.id == interviewId)
    ({ db with interviews := db.interviews.set idx updatedInterview }, .ok updatedInterview)

/-- The outcomes `recordInterviewFeedback` accepts. -/
def validOutcomes : List String := ["selected", "rejected", "hold", "next_round"]

/-- The ternary chain mapping a (truthy) outcome to the candidate status. -/
def outcomeToCandidateStatus (outcome : String) : String :=
  if outcome == "selected" then "selected"
  else if outcome == "rejected" then "rejected"
  else if outcome == "next_round" then "interview_scheduled"
  else "on_hold"

/-- Feedback object of `recordInterviewFeedback`, with the destructuring
default `panelFeedback = []`. -/
structure FeedbackData where
  rating : Option Int := none
  remarks : Option String := none
  outcome : Option String := none
  panelFeedback : List PanelFeedbackEntry := []
deriving DecidableEq, Repr

/-- `recordInterviewFeedback(interviewId, feedback)`: requires the
interview to be `scheduled`; validates a truthy rating against [1,5] and a
truthy outcome against `validOutcomes`; then marks the interview
`completed` (stamping `completedAt`) and, when the outcome is truthy,
rewrites the candidate's status through the outcome mapping.  As in the
JavaScript, the interview-array write happens before the candidate
lookup, so a dangling `candidateId` aborts after the interview was
already rewritten. -/
def recordInterviewFeedback (db : DB) (now : String) (interviewId : Nat)
    (fb : FeedbackData) : DB × Except HRMSError Interview :=
  match db.interviews.find? (fun i => i.id == interviewId) with
  | none => (db, .error (.notFound "Interview not found"))
  | some interview =>
    if interview.status ≠ "scheduled" then
      (db, .error (.invalidStateTransition "Can only record feedback for scheduled interviews"))
    else if jsTruthyOptInt fb.rating ∧ (fb.rating.getD 0 < 1 ∨ fb.rating.getD 0 > 5) then
      (db, .error (.validationError "Rating must be between 1 and 5"))
    else if jsTruthyOptStr fb.outcome ∧ fb.outcome.getD "" ∉ validOutcomes then
      (db, .error (.validationError "Invalid outcome. Must be: selected, rejected, hold, or next_round"))
    else
      let updatedInterview := { interview with
        rating := jsOrOptInt fb.rating interview.rating
        remarks := jsOrStr fb.remarks interview.remarks
        outcome := fb.outcome
        panelFeedback := fb.panelFeedback
        status := "completed"
        completedAt := some now }
      let idx := db.interviews.findIdx (fun i => i.id == interviewId)
      let db1 := { db with interviews := db.interviews.set idx updatedInterview }
      if jsTruthyOptStr fb.outcome then
        match updateCandidateStatus db1 interview.candidateId
            (outcomeToCandidateStatus (fb.outcome.getD "")) with
        | .error e => (db1, .error e)
        | .ok db2 => (db2, .ok updatedInterview)
      else
        (db1, .ok updatedInterview)

/-- Argument object of `initiateBackgroundVerification`. -/
structure VerificationData where
  type : Option String := none
  agency : Option String := none
  documents : Option (List String) := none
deriving DecidableEq, Repr

/-- `initiateBackgroundVerification(candidateId, data)`: requires the
candidate to exist, appends an `initiated` verification and sets the
candidate's status to `background_verification`. -/
def initiateBackgroundVerification (db : DB) (now : String) (candidateId : Nat)
    (data : VerificationData) : DB × Except HRMSError BackgroundVerification :=
  match db.candidates.find? (fun c => c.id == candidateId) with
  | none => (db, .error (.notFound "Candidate not found"))
  | some _ =>
    let newId := db.idBackgroundVerifications + 1
    let verification : BackgroundVerification := {
      id := newId
      candidateId := candidateId
      type := jsOrStr data.type "standard"
      agency := if jsTruthyOptStr data.agency then data.agency else none
      status := "initiated"
      documents := data.documents.getD []
      remarks := ""
      initiatedBy := none
      initiatedAt := now
      completedAt := none
      verifiedBy := none }
    let db1 := { db with backgroundVerifications := db.backgroundVerifications ++ [verification],
                         idBackgroundVerifications := newId }
    match updateCandidateStatus db1 candidateId "background_verification" with
    | .error e => (db1, .error e)
    | .ok db2 => (db2, .ok verification)

/-- The statuses `updateBackgroundVerification` accepts. -/
def validVerificationStatuses : List String :=
  ["initiated", "in_progress", "completed_passed", "completed_failed"]

/-- Update object of `updateBackgroundVerification`. -/
structure VerificationUpdates where
  status : Option String := none
  remarks : Option String := none
  verifiedBy : Option Nat := none
deriving DecidableEq, Repr

/-- `updateBackgroundVerification(verificationId, updates)`: validates a
truthy status against the enum, falsy-coalesces `status`/`remarks`/
`verifiedBy` onto the stored record, and when the supplied status is
terminal stamps `completedAt` and rewrites the candidate's status to
`verified` / `verification_failed`.  No check relates the supplied status
to the current one. -/
def updateBackgroundVerification (db : DB) (now : String) (verificationId : Nat)
    (updates : VerificationUpdates) : DB × Except HRMSError BackgroundVerification :=
  match db.backgroundVerifications.find? (fun v => v.id == verificationId) with
  | none => (db, .error (.notFound "Background verification not found"))
  | some verification =>
    if jsTruthyOptStr updates.status ∧ updates.status.getD "" ∉ validVerificationStatuses then
      (db, .error (.validationError "Invalid status"))
    else
      let base := { verification with
        status := jsOrStr updates.status verification.status
        remarks := jsOrStr updates.remarks verification.remarks
        verifiedBy := jsOrOptNat updates.verifiedBy verification.verifiedBy }
      if updates.status == some "completed_passed" || updates.status == some "completed_failed" then
        let updatedVerification := { base with completedAt := some now }
        let newStatus :=
          if updates.status == some "completed_passed" then "verified" else "verification_failed"
        match updateCandidateStatus db verification.candidateId newStatus with
        | .error e => (db, .error e)
        | .ok db1 =>
          let idx := db.backgroundVerifications.findIdx (fun v => v.id == verificationId)
          ({ db1 with backgroundVerifications := db.backgroundVerifications.set idx updatedVerification },
           .ok updatedVerification)
      else
        let idx := db.backgroundVerifications.findIdx (fun v => v.id == verificationId)
        ({ db with backgroundVerifications := db.backgroundVerifications.set idx base },
         .ok base)

/-- JS `Math.round`: round half toward positive infinity,
`Math.round(x) = ⌊x + 1/2⌋`. -/
def jsMathRound (q : Rat) : Int := Int.floor (q + 1 / 2)

/-- The fields of the `getInterviewDashboard` result relevant here.
(`outcomeStats` and `upcomingInterviews` additionally depend on the
current wall-clock date and are not needed by any claim.) -/
structure InterviewDashboard where
  totalInterviews : Nat
  scheduledInterviews : Nat
  completedInterviews : Nat
  averageRating : Rat
deriving DecidableEq, Repr

/-- The interviews with a truthy rating (`interviews.filter(i => i.rating)`). -/
def ratedInterviews (db : DB) : List Interview :=
  db.interviews.filter (fun i => jsTruthyOptInt i.rating)

/-- `getInterviewDashboard()` (counts and average rating).  JavaScript
computes `sum / count || 0` where `0/0` is `NaN` and `NaN || 0` as well as
`0 || 0` give `0`, so the expression agrees with the conditional below;
the result field is `Math.round(avg * 10) / 10`. -/
def getInterviewDashboard (db : DB) : InterviewDashboard :=
  let interviews := db.interviews
  let rated := interviews.filter (fun i => jsTruthyOptInt i.rating)
  let sum : Int := rated.foldl (fun s i => s + i.rating.getD 0) 0
  let avgRating : Rat := if rated.length == 0 then 0 else (sum : Rat) / (rated.length : Rat)
  { totalInterviews := interviews.length
    scheduledInterviews := (interviews.filter (fun i => i.status == "scheduled")).length
    completedInterviews := (interviews.filter (fun i => i.status == "completed")).length
    averageRating := (jsMathRound (avgRating * 10) : Rat) / 10 }

/-- Refinement definition following the spec's words: the arithmetic mean
of the ratings over exactly those interviews that have a present rating,
and `0` when no interview has one. -/
def specAverageRating (db : DB) : Rat :=
  let rated := ratedInterviews db
  if rated.length = 0 then 0
  else ((rated.foldl (fun s i => s + i.rating.getD 0) 0 : Int) : Rat) / (rated.length : Rat)

/-! ### Concrete example data (used by witnesses and counterexamples) -/

/-- Two interviewers, ids 2 and 3. -/
def exUsers : List User :=
  [{ id := 2, name := "Asha", email := "asha@example.com" },
   { id := 3, name := "Ravi", email := "ravi@example.com" }]

/-- Candidate 1. -/
def exCandidate : Candidate :=
  { id := 1, name := "Mira", email := "mira@example.com", jobPostingId := 7,
    status := "shortlisted" }

/-- A store with candidate 1 and interviewers 2 and 3, no interviews yet. -/
def exDbEmpty : DB :=
  { users := exUsers, candidates := [exCandidate], interviews := [],
    backgroundVerifications := [], idInterviews := 0, idBackgroundVerifications := 0 }

/-- A scheduled interview for candidate 1. -/
def exInterview : Interview :=
  { id := 1, candidateId := 1, date := "2024-01-15", time := "10:00", panel := [2, 3],
    round := 1, type := "technical", location := "virtual", status := "scheduled",
    feedback := none, rating := none, remarks := "", outcome := none, panelFeedback := [],
    scheduledBy := none, scheduledAt := "2024-01-10T00:00:00.000Z", completedAt := none }

/-- A store holding the scheduled interview `exInterview`. -/
def exDbScheduled : DB :=
  { users := exUsers,
    candidates := [{ exCandidate with status := "interview_scheduled" }],
    interviews := [exInterview],
    backgroundVerifications := [], idInterviews := 1, idBackgroundVerifications := 0 }

/-- The interview `exInterview` after feedback was recorded on it. -/
def exInterviewDone : Interview :=
  { exInterview with
    status := "completed", rating := some 4,
    outcome := some "selected", completedAt := some "2024-01-15T12:00:00.000Z" }

/-- A store holding an already completed interview. -/
def exDbCompleted : DB :=
  { users := exUsers,
    candidates := [{ exCandidate with status := "selected" }],
    interviews := [exInterviewDone],
    backgroundVerifications := [], idInterviews := 1, idBackgroundVerifications := 0 }

/-- A verification that already reached the terminal status `completed_passed`. -/
def exVerificationPassed : BackgroundVerification :=
  { id := 1, candidateId := 1, type := "standard", agency := none,
    status := "completed_passed", documents := [], remarks := "", initiatedBy := none,
    initiatedAt := "2024-02-01T00:00:00.000Z",
    completedAt := some "2024-02-03T00:00:00.000Z", verifiedBy := none }

/-- A store whose only verification is terminally `completed_passed`. -/
def exDbVerifPassed : DB :=
  { users := exUsers,
    candidates := [{ exCandidate with status := "verified" }],
    interviews := [],
    backgroundVerifications := [exVerificationPassed],
    idInterviews := 0, idBackgroundVerifications := 1 }

/-- A verification still `in_progress`. -/
def exVerificationInProgress : BackgroundVerification :=
  { exVerificationPassed with status := "in_progress", completedAt := none }

/-- A store whose only verification is still `in_progress`. -/
def exDbVerifInProgress : DB :=
  { users := exUsers,
    candidates := [{ exCandidate with status := "background_verification" }],
    interviews := [],
    backgroundVerifications := [exVerificationInProgress],
    idInterviews := 0, idBackgroundVerifications := 1 }

/-- A store with three rated interviews (ratings 1, 1, 2), whose exact mean
4/3 is not representable with one decimal digit. -/
def exDbRatings : DB :=
  { users := exUsers,
    candidates := [exCandidate],
    interviews :=
      [{ exInterview with id := 1, status := "completed", rating := some 1 },
       { exInterview with id := 2, status := "completed", rating := some 1 },
       { exInterview with id := 3, status := "completed", rating := some 2 }],
    backgroundVerifications := [], idInterviews := 3, idBackgroundVerifications := 0 }

/-- A second, completed interview on a different date with a different panel. -/
def exInterviewTwo : Interview :=
  { exInterview with
    id := 2, date := "2024-01-20", panel := [3],
    status := "completed", rating := some 5 }

/-- A store with one scheduled and one completed interview, for filter tests. -/
def exDbTwoInterviews : DB :=
  { users := exUsers,
    candidates := [exCandidate],
    interviews := [exInterview, exInterviewTwo],
    backgroundVerifications := [], idInterviews := 2, idBackgroundVerifications := 0 }

/-! ### General lemmas about the list-backed store -/

/-- Replacing the element that `find?` locates (at the index `findIdx`
locates) by an element still satisfying the predicate makes `find?`
return the new element. -/
theorem find?_set_findIdx {α : Type} (l : List α) (p : α → Bool) (x y : α)
    (h : l.find? p = some x) (hy : p y = true) :
    (l.set (l.findIdx p) y).find? p = some y := by
  induction l with
  | nil => simp at h
  | cons a t ih =>
    by_cases ha : p a = true
    · simp only [List.findIdx_cons, ha, cond_true, List.set_cons_zero]
      exact List.find?_cons_of_pos t hy
    · have h2 : t.find? p = some x := by rwa [List.find?_cons_of_neg t ha] at h
      have hb : p a = false := by simpa using ha
      simp only [List.findIdx_cons, hb, cond_false, List.set_cons_succ]
      rw [List.find?_cons_of_neg _ ha]
      exact ih h2

/-- `updateCandidateStatus` on an existing candidate: the explicit result. -/
theorem updateCandidateStatus_ok (db : DB) (cid : Nat) (st : String) (c : Candidate)
    (h : db.candidates.find? (fun c2 => c2.id == cid) = some c) :
    updateCandidateStatus db cid st =
      .ok { db with candidates := db.candidates.set (db.candidates.findIdx (fun c2 => c2.id == cid)) ({ c with status := st }) } := by
  unfold updateCandidateStatus
  rw [h]

/-- `updateCandidateStatus` fails only with the candidate-not-found error,
and only when no candidate has the id. -/
theorem updateCandidateStatus_error (db : DB) (cid : Nat) (st : String) (e : HRMSError)
    (h : updateCandidateStatus db cid st = .error e) :
    e = .notFound "Candidate not found" ∧
      db.candidates.find? (fun c2 => c2.id == cid) = none := by
  unfold updateCandidateStatus at h
  cases hf : db.candidates.find? (fun c2 => c2.id == cid) with
  | none => rw [hf] at h; simp at h; exact ⟨h.symm, rfl⟩
  | some c => rw [hf] at h; simp at h

/-- `updateCandidateStatus` touches only the candidates collection. -/
theorem updateCandidateStatus_frame (db db1 : DB) (cid : Nat) (st : String)
    (h : updateCandidateStatus db cid st = .ok db1) :
    db1.users = db.users ∧ db1.interviews = db.interviews ∧
    db1.backgroundVerifications = db.backgroundVerifications ∧
    db1.idInterviews = db.idInterviews ∧
    db1.idBackgroundVerifications = db.idBackgroundVerifications := by
  unfold updateCandidateStatus at h
  cases hf : db.candidates.find? (fun c2 => c2.id == cid) with
  | none => rw [hf] at h; simp at h
  | some c =>
    rw [hf] at h
    simp only [Except.ok.injEq] at h
    subst h
    exact ⟨rfl, rfl, rfl, rfl, rfl⟩

/-- `updateCandidateStatus` on an existing candidate succeeds, and the
candidate is subsequently found with the new status. -/
theorem updateCandidateStatus_found (db : DB) (cid : Nat) (st : String) (c : Candidate)
    (h : db.candidates.find? (fun c2 => c2.id == cid) = some c) :
    ∃ db1, updateCandidateStatus db cid st = .ok db1 ∧
      db1.candidates.find? (fun c2 => c2.id == cid) = some { c with status := st } ∧
      db1.users = db.users ∧ db1.interviews = db.interviews ∧
      db1.backgroundVerifications = db.backgroundVerifications ∧
      db1.idInterviews = db.idInterviews ∧
      db1.idBackgroundVerifications = db.idBackgroundVerifications := by
  refine ⟨_, updateCandidateStatus_ok db cid st c h, ?_, rfl, rfl, rfl, rfl, rfl⟩
  have hpc := List.find?_some h
  exact find?_set_findIdx _ _ c _ h (by simpa using hpc)

/-- Recording feedback on an interview that is not `scheduled` fails with
the state-transition error and returns the store unchanged. -/
theorem recordInterviewFeedback_not_scheduled (db : DB) (now : String) (iid : Nat)
    (fb : FeedbackData) (i : Interview)
    (hf : db.interviews.find? (fun j => j.id == iid) = some i)
    (hs : i.status ≠ "scheduled") :
    recordInterviewFeedback db now iid fb =
      (db, .error (.invalidStateTransition "Can only record feedback for scheduled interviews")) := by
  unfold recordInterviewFeedback
  rw [hf]
  simp only [if_pos hs]

/-- A successful `recordInterviewFeedback` leaves the interview stored as
`completed`, and the stored record is the returned one. -/
theorem recordInterviewFeedback_ok_completed (db db1 : DB) (now : String) (iid : Nat)
    (fb : FeedbackData) (iv : Interview)
    (h : recordInterviewFeedback db now iid fb = (db1, .ok iv)) :
    iv.status = "completed" ∧ db1.interviews.find? (fun j => j.id == iid) = some iv := by
  unfold recordInterviewFeedback at h
  split at h
  · simp at h
  next interview hf =>
    split at h
    · simp at h
    split at h
    · simp at h
    split at h
    · simp at h
    dsimp only [] at h
    split at h
    · split at h
      · simp at h
      next db2 hupd =>
        simp only [Prod.mk.injEq, Except.ok.injEq] at h
        obtain ⟨h3, h4⟩ := h
        subst h3; subst h4
        refine ⟨rfl, ?_⟩
        have hframe := updateCandidateStatus_frame _ _ _ _ hupd
        rw [hframe.2.1]
        exact find?_set_findIdx _ _ interview _ hf (by simpa using List.find?_some hf)
    · simp only [Prod.mk.injEq, Except.ok.injEq] at h
      obtain ⟨h3, h4⟩ := h
      subst h3; subst h4
      refine ⟨rfl, ?_⟩
      exact find?_set_findIdx _ _ interview _ hf (by simpa using List.find?_some hf)

/-- A failing `scheduleInterview` returns the store unchanged: every throw
in the JavaScript function happens before any mutation, and the candidate
re-lookup inside `updateCandidateStatus` cannot fail because the candidate
was already found. -/
theorem scheduleInterview_error_eq (db db9 : DB) (now : String) (data : ScheduleData)
    (e : HRMSError) (h : scheduleInterview db now data = (db9, .error e)) : db9 = db := by
  unfold scheduleInterview at h
  split at h
  · simp at h; exact h.1.symm
  split at h
  · simp at h; exact h.1.symm
  next c hfc =>
  split at h
  · simp at h; exact h.1.symm
  dsimp only [] at h
  split at h
  · next e2 hupd =>
    exfalso
    obtain ⟨-, hnone⟩ := updateCandidateStatus_error _ _ _ _ hupd
    rw [show ({ db with interviews := db.interviews ++ [_], idInterviews := db.idInterviews + 1 } : DB).candidates = db.candidates from rfl] at hnone
    rw [hfc] at hnone
    exact Option.noConfusion hnone
  · simp at h

/-- A `recordInterviewFeedback` failure of kind `ValidationError` or
`InvalidStateTransition` returns the store unchanged (all three validation
checks happen before any mutation). -/
theorem recordInterviewFeedback_validation_frame (db db9 : DB) (now : String) (iid : Nat)
    (fb : FeedbackData) (m : String)
    (h : recordInterviewFeedback db now iid fb = (db9, .error (.validationError m)) ∨
         recordInterviewFeedback db now iid fb = (db9, .error (.invalidStateTransition m))) :
    db9 = db := by
  have hgen : ∀ e : HRMSError,
      recordInterviewFeedback db now iid fb = (db9, .error e) →
      (∀ m2, e ≠ .notFound m2) → db9 = db := by
    intro e h2 hne
    unfold recordInterviewFeedback at h2
    split at h2
    · simp at h2; exact h2.1.symm
    split at h2
    · simp at h2; exact h2.1.symm
    split at h2
    · simp at h2; exact h2.1.symm
    split at h2
    · simp at h2; exact h2.1.symm
    dsimp only [] at h2
    split at h2
    · split at h2
      · next e2 hupd =>
        exfalso
        obtain ⟨he2, -⟩ := updateCandidateStatus_error _ _ _ _ hupd
        simp only [Prod.mk.injEq] at h2
        exact hne _ (by rw [← Except.error.injEq, ← h2.2, he2])
      · simp at h2
    · simp at h2
  rcases h with h | h
  · exact hgen _ h (by intro m2 hx; exact HRMSError.noConfusion hx)
  · exact hgen _ h (by intro m2 hx; exact HRMSError.noConfusion hx)

/-- A failing `updateBackgroundVerification` returns the store unchanged:
every throw happens before the verification-array write. -/
theorem updateBackgroundVerification_error_eq (db db9 : DB) (now : String) (vid : Nat)
    (u : VerificationUpdates) (e : HRMSError)
    (h : updateBackgroundVerification db now vid u = (db9, .error e)) : db9 = db := by
  unfold updateBackgroundVerification at h
  split at h
  · simp at h; exact h.1.symm
  split at h
  · simp at h; exact h.1.symm
  dsimp only [] at h
  split at h
  · split at h
    · simp at h; exact h.1.symm
    · simp at h
  · simp at h

/-- C2: for every interview whose status is not `scheduled`,
`recordInterviewFeedback` fails with an `InvalidStateTransition` error and
changes no field of the interview or of any candidate (the whole store is
returned unchanged); and after a successful recording a second recording
on the same interview fails the same way and changes nothing, so feedback
is recorded at most once per interview. -/
theorem recordInterviewFeedback_at_most_once :
    (∀ (db : DB) (now : String) (iid : Nat) (fb : FeedbackData) (i : Interview),
      db.interviews.find? (fun j => j.id == iid) = some i →
      i.status ≠ "scheduled" →
      recordInterviewFeedback db now iid fb =
        (db, .error (.invalidStateTransition "Can only record feedback for scheduled interviews"))) ∧
    (∀ (db db1 : DB) (now now2 : String) (iid : Nat) (fb fb2 : FeedbackData) (iv : Interview),
      recordInterviewFeedback db now iid fb = (db1, .ok iv) →
      recordInterviewFeedback db1 now2 iid fb2 =
        (db1, .error (.invalidStateTransition "Can only record feedback for scheduled interviews"))) := by
  constructor
  · intro db now iid fb i hf hs
    exact recordInterviewFeedback_not_scheduled db now iid fb i hf hs
  · intro db db1 now now2 iid fb fb2 iv h
    obtain ⟨hst, hfind⟩ := recordInterviewFeedback_ok_completed db db1 now iid fb iv h
    exact recordInterviewFeedback_not_scheduled db1 now2 iid fb2 iv hfind (by simp [hst])

/-- Witness for C2 at concrete inputs: feedback on the completed interview
of `exDbCompleted` fails without changing the store, and after successfully
recording feedback on the scheduled interview of `exDbScheduled` a second
recording fails without changing the store. -/
theorem recordInterviewFeedback_at_most_once_witness :
    recordInterviewFeedback exDbCompleted "T9" 1 {} =
      (exDbCompleted, .error (.invalidStateTransition "Can only record feedback for scheduled interviews")) ∧
    recordInterviewFeedback
        (recordInterviewFeedback exDbScheduled "T1" 1 { rating := some 4, outcome := some "selected" }).1
        "T2" 1 {} =
      ((recordInterviewFeedback exDbScheduled "T1" 1 { rating := some 4, outcome := some "selected" }).1,
       .error (.invalidStateTransition "Can only record feedback for scheduled interviews")) := by
  constructor
  · exact recordInterviewFeedback_at_most_once.1 exDbCompleted "T9" 1 {} exInterviewDone rfl (by decide)
  · exact recordInterviewFeedback_at_most_once.2 exDbScheduled _ "T1" "T2" 1
      { rating := some 4, outcome := some "selected" } {} _ rfl

/-- With the required fields present and the candidate existing, a panel
containing an id with no matching user makes `scheduleInterview` fail with
a `NotFound` error and leaves the store unchanged. -/
theorem scheduleInterview_missing_panel_member (db : DB) (now : String)
    (data : ScheduleData) (pid : Nat)
    (h1 : data.candidateId ≠ 0) (h2 : data.date ≠ "") (h3 : data.time ≠ "")
    (hc : (db.candidates.find? (fun c => c.id == data.candidateId)).isSome)
    (hp : pid ∈ data.panel) (hu : db.users.any (fun u => u.id == pid) = false) :
    ∃ m, scheduleInterview db now data = (db, .error (.notFound m)) := by
  unfold scheduleInterview
  rw [if_neg (by simp [h1, h2, h3])]
  obtain ⟨c, hfc⟩ := Option.isSome_iff_exists.mp hc
  rw [hfc]
  have hsome : (data.panel.find? (fun q => !(db.users.any (fun u => u.id == q)))).isSome :=
    List.find?_isSome.mpr ⟨pid, hp, by simp [hu]⟩
  obtain ⟨q, hq⟩ := Option.isSome_iff_exists.mp hsome
  rw [hq]
  exact ⟨_, rfl⟩

/-- C6: scheduling with a panel member id that references no user fails
with `NotFound` and creates nothing; and more generally every validation
failure of a transition operation leaves the whole store unchanged: any
`scheduleInterview` error, any `recordInterviewFeedback` failure of kind
`ValidationError`/`InvalidStateTransition`, and any
`updateBackgroundVerification` error return the input store. -/
theorem transition_failures_no_partial_mutation :
    (∀ (db : DB) (now : String) (data : ScheduleData) (pid : Nat),
      data.candidateId ≠ 0 → data.date ≠ "" → data.time ≠ "" →
      (db.candidates.find? (fun c => c.id == data.candidateId)).isSome →
      pid ∈ data.panel → db.users.any (fun u => u.id == pid) = false →
      ∃ m, scheduleInterview db now data = (db, .error (.notFound m))) ∧
    (∀ (db db9 : DB) (now : String) (data : ScheduleData) (e : HRMSError),
      scheduleInterview db now data = (db9, .error e) → db9 = db) ∧
    (∀ (db db9 : DB) (now : String) (iid : Nat) (fb : FeedbackData) (m : String),
      (recordInterviewFeedback db now iid fb = (db9, .error (.validationError m)) ∨
       recordInterviewFeedback db now iid fb = (db9, .error (.invalidStateTransition m))) →
      db9 = db) ∧
    (∀ (db db9 : DB) (now : String) (vid : Nat) (u : VerificationUpdates) (e : HRMSError),
      updateBackgroundVerification db now vid u = (db9, .error e) → db9 = db) := by
  refine ⟨?_, ?_, ?_, ?_⟩
  · intro db now data pid h1 h2 h3 hc hp hu
    exact scheduleInterview_missing_panel_member db now data pid h1 h2 h3 hc hp hu
  · intro db db9 now data e h
    exact scheduleInterview_error_eq db db9 now data e h
  · intro db db9 now iid fb m h
    exact recordInterviewFeedback_validation_frame db db9 now iid fb m h
  · intro db db9 now vid u e h
    exact updateBackgroundVerification_error_eq db db9 now vid u e h

/-- Witness for C6: scheduling on `exDbEmpty` with panel `[2, 9]`, where
no user has id 9, fails with `NotFound` and leaves the store unchanged. -/
theorem transition_failures_no_partial_mutation_witness :
    ∃ m, scheduleInterview exDbEmpty "T0"
        { candidateId := 1, date := "2024-01-15", time := "10:00", panel := [2, 9] } =
      (exDbEmpty, .error (.notFound m)) := by
  exact transition_failures_no_partial_mutation.1 exDbEmpty "T0"
    { candidateId := 1, date := "2024-01-15", time := "10:00", panel := [2, 9] } 9
    (by decide) (by decide) (by decide) (by decide) (by decide) (by decide)

/-- C9: when the candidate exists, every panel member id references an
existing user, and `candidateId`/`date`/`time` are non-empty,
`scheduleInterview` appends a new interview with status `scheduled` and
sets that candidate's status to `interview_scheduled`. -/
theorem scheduleInterview_success (db : DB) (now : String) (data : ScheduleData)
    (c : Candidate)
    (h1 : data.candidateId ≠ 0) (h2 : data.date ≠ "") (h3 : data.time ≠ "")
    (hc : db.candidates.find? (fun c2 => c2.id == data.candidateId) = some c)
    (hp : ∀ pid ∈ data.panel, db.users.any (fun u => u.id == pid) = true) :
    ∃ db2 iv, scheduleInterview db now data = (db2, .ok iv) ∧
      iv.status = "scheduled" ∧ iv.candidateId = data.candidateId ∧
      db2.interviews = db.interviews ++ [iv] ∧
      db2.candidates.find? (fun c2 => c2.id == data.candidateId) =
        some ({ c with status := "interview_scheduled" }) := by
  unfold scheduleInterview
  rw [if_neg (by simp [h1, h2, h3])]
  rw [hc]
  have hnone : data.panel.find? (fun q => !(db.users.any (fun u => u.id == q))) = none :=
    List.find?_eq_none.mpr (fun x hx => by simp [hp x hx])
  rw [hnone]
  dsimp only []
  obtain ⟨db2, hok, hfound, -, -, -, -, -⟩ :=
    updateCandidateStatus_found
      { db with
        interviews := db.interviews ++ [{
          id := db.idInterviews + 1, candidateId := data.candidateId, date := data.date,
          time := data.time, panel := data.panel, round := data.round, type := data.type,
          location := data.location, status := "scheduled", feedback := none, rating := none,
          remarks := "", outcome := none, panelFeedback := [], scheduledBy := none,
          scheduledAt := now, completedAt := none }],
        idInterviews := db.idInterviews + 1 }
      data.candidateId "interview_scheduled" c hc
  rw [hok]
  exact ⟨db2, _, rfl, rfl, rfl, by rw [(updateCandidateStatus_frame _ _ _ _ hok).2.1], hfound⟩

/-- Witness for C9, the spec scenario: scheduling candidate 1 on
2024-01-15 at 10:00 with panel `[2, 3]` (users 2 and 3 exist) returns a
`scheduled` interview and moves candidate 1 to `interview_scheduled`. -/
theorem scheduleInterview_success_witness :
    ∃ db2 iv, scheduleInterview exDbEmpty "T0"
        { candidateId := 1, date := "2024-01-15", time := "10:00", panel := [2, 3] } =
        (db2, .ok iv) ∧
      iv.status = "scheduled" ∧ iv.candidateId = 1 ∧
      db2.interviews = exDbEmpty.interviews ++ [iv] ∧
      db2.candidates.find? (fun c2 => c2.id == 1) =
        some ({ exCandidate with status := "interview_scheduled" }) := by
  exact scheduleInterview_success exDbEmpty "T0"
    { candidateId := 1, date := "2024-01-15", time := "10:00", panel := [2, 3] }
    exCandidate (by decide) (by decide) (by decide) rfl (by decide)

/-- Counterexample to C1 as stated: the empty string is an outcome outside
`{selected, rejected, hold, next_round}`, yet `recordInterviewFeedback`
accepts it, because the JavaScript guard `outcome && !valid.includes(outcome)`
skips validation for falsy outcomes. -/
theorem recordInterviewFeedback_empty_outcome_accepted :
    "" ∉ validOutcomes ∧
    (recordInterviewFeedback exDbScheduled "T1" 1 { outcome := some "" }).2.isOk = true := by
  constructor
  · decide
  · rfl

/-- C1 (amended): on a `scheduled` interview (with a rating that passes
validation), a supplied non-empty outcome outside the valid set fails with
`ValidationError` and changes nothing; a supplied valid outcome completes
the interview and maps the candidate's status by
selected ↦ selected, rejected ↦ rejected, next_round ↦ interview_scheduled,
hold ↦ on_hold. -/
theorem recordInterviewFeedback_outcome_spec :
    (∀ (db : DB) (now : String) (iid : Nat) (fb : FeedbackData) (i : Interview) (s : String),
      db.interviews.find? (fun j => j.id == iid) = some i →
      i.status = "scheduled" →
      ¬(jsTruthyOptInt fb.rating = true ∧ (fb.rating.getD 0 < 1 ∨ fb.rating.getD 0 > 5)) →
      fb.outcome = some s → s ≠ "" → s ∉ validOutcomes →
      recordInterviewFeedback db now iid fb =
        (db, .error (.validationError "Invalid outcome. Must be: selected, rejected, hold, or next_round"))) ∧
    (∀ (db : DB) (now : String) (iid : Nat) (fb : FeedbackData) (i : Interview)
        (c : Candidate) (s : String),
      db.interviews.find? (fun j => j.id == iid) = some i →
      i.status = "scheduled" →
      ¬(jsTruthyOptInt fb.rating = true ∧ (fb.rating.getD 0 < 1 ∨ fb.rating.getD 0 > 5)) →
      fb.outcome = some s → s ∈ validOutcomes →
      db.candidates.find? (fun c2 => c2.id == i.candidateId) = some c →
      ∃ db2 iv, recordInterviewFeedback db now iid fb = (db2, .ok iv) ∧
        iv.status = "completed" ∧ iv.completedAt = some now ∧
        db2.interviews.find? (fun j => j.id == iid) = some iv ∧
        db2.candidates.find? (fun c2 => c2.id == i.candidateId) =
          some ({ c with status :=
            if s = "selected" then "selected"
            else if s = "rejected" then "rejected"
            else if s = "next_round" then "interview_scheduled"
            else "on_hold" })) := by
  constructor
  · intro db now iid fb i s hf hs hr ho hne hnv
    have hcond : jsTruthyOptStr fb.outcome = true ∧ fb.outcome.getD "" ∉ validOutcomes := by
      refine ⟨by simp [ho, jsTruthyOptStr, hne], by simpa [ho] using hnv⟩
    unfold recordInterviewFeedback
    rw [hf]
    dsimp only []
    rw [if_neg (by simp [hs]), if_neg hr, if_pos hcond]
  · intro db now iid fb i c s hf hs hr ho hv hc
    simp only [validOutcomes, List.mem_cons, List.not_mem_nil, or_false] at hv
    rcases hv with rfl | rfl | rfl | rfl
    all_goals (
      unfold recordInterviewFeedback
      rw [hf]
      dsimp only []
      rw [if_neg (by simp [hs]), if_neg hr,
        if_neg (by simp [ho, jsTruthyOptStr, validOutcomes]),
        if_pos (by simp [ho, jsTruthyOptStr])]
      obtain ⟨db2, hok, hfound, -, hi2, -, -, -⟩ :=
        updateCandidateStatus_found
          { db with interviews := db.interviews.set (db.interviews.findIdx (fun j => j.id == iid)) ({ i with rating := jsOrOptInt fb.rating i.rating, remarks := jsOrStr fb.remarks i.remarks, outcome := fb.outcome, panelFeedback := fb.panelFeedback, status := "completed", completedAt := some now }) }
          i.candidateId (outcomeToCandidateStatus (fb.outcome.getD "")) c hc
      rw [hok]
      refine ⟨db2, _, rfl, rfl, rfl, ?_, ?_⟩
      · rw [hi2]
        exact find?_set_findIdx _ _ i _ hf (by simpa using List.find?_some hf)
      · rw [hfound, ho]
        rfl)

/-- Witness for C1 (amended) at concrete inputs: outcome `maybe` is
rejected with `ValidationError`; outcome `hold` completes the interview
and puts candidate 1 on `on_hold`. -/
theorem recordInterviewFeedback_outcome_spec_witness :
    recordInterviewFeedback exDbScheduled "T1" 1 { outcome := some "maybe" } =
      (exDbScheduled,
       .error (.validationError "Invalid outcome. Must be: selected, rejected, hold, or next_round")) ∧
    (∃ db2 iv, recordInterviewFeedback exDbScheduled "T1" 1 { outcome := some "hold" } =
        (db2, .ok iv) ∧
      iv.status = "completed" ∧ iv.completedAt = some "T1" ∧
      db2.interviews.find? (fun j => j.id == 1) = some iv ∧
      db2.candidates.find? (fun c2 => c2.id == exInterview.candidateId) =
        some ({ exCandidate with status := "on_hold" })) := by
  constructor
  · exact recordInterviewFeedback_outcome_spec.1 exDbScheduled "T1" 1 { outcome := some "maybe" }
      exInterview "maybe" rfl rfl (by decide) rfl (by decide) (by decide)
  · exact recordInterviewFeedback_outcome_spec.2 exDbScheduled "T1" 1 { outcome := some "hold" }
      exInterview ({ exCandidate with status := "interview_scheduled" }) "hold"
      rfl rfl (by decide) rfl (by decide) rfl

/-- Counterexample to C3 as stated: a supplied rating of `0` does not make
`recordInterviewFeedback` fail — the JavaScript guard
`rating && (rating < 1 || rating > 5)` skips validation because `0` is
falsy, so the call succeeds. -/
theorem recordInterviewFeedback_zero_rating_accepted :
    (recordInterviewFeedback exDbScheduled "T1" 1 { rating := some 0 }).2.isOk = true := by
  rfl

/-- C3 (amended): a supplied nonzero rating is accepted only when it lies
in [1,5] — outside that range (in particular `6`) the call fails with
`ValidationError` — while a supplied rating of `0` is treated as "not
provided": the call succeeds and the stored rating keeps its previous
value. -/
theorem recordInterviewFeedback_rating_spec :
    (∀ (db : DB) (now : String) (iid : Nat) (fb : FeedbackData) (i : Interview) (r : Int),
      db.interviews.find? (fun j => j.id == iid) = some i →
      i.status = "scheduled" →
      fb.rating = some r → r ≠ 0 → (r < 1 ∨ r > 5) →
      recordInterviewFeedback db now iid fb =
        (db, .error (.validationError "Rating must be between 1 and 5"))) ∧
    (∀ (db : DB) (now : String) (iid : Nat) (fb : FeedbackData) (i : Interview),
      db.interviews.find? (fun j => j.id == iid) = some i →
      i.status = "scheduled" →
      fb.rating = some 0 → fb.outcome = none →
      ∃ db2 iv, recordInterviewFeedback db now iid fb = (db2, .ok iv) ∧
        iv.rating = i.rating) := by
  constructor
  · intro db now iid fb i r hf hs hrat hr0 hrange
    have hcond : jsTruthyOptInt fb.rating = true ∧
        (fb.rating.getD 0 < 1 ∨ fb.rating.getD 0 > 5) := by
      refine ⟨by simp [hrat, jsTruthyOptInt, hr0], by simpa [hrat] using hrange⟩
    unfold recordInterviewFeedback
    rw [hf]
    dsimp only []
    rw [if_neg (by simp [hs]), if_pos hcond]
  · intro db now iid fb i hf hs hrat hout
    unfold recordInterviewFeedback
    rw [hf]
    dsimp only []
    rw [if_neg (by simp [hs]), if_neg (by simp [hrat, jsTruthyOptInt]),
      if_neg (by simp [hout, jsTruthyOptStr]), if_neg (by simp [hout, jsTruthyOptStr])]
    exact ⟨_, _, rfl, by simp [hrat, jsOrOptInt, jsTruthyOptInt]⟩

/-- Witness for C3 (amended): rating 6 fails with `ValidationError`;
rating 0 succeeds and keeps the stored rating. -/
theorem recordInterviewFeedback_rating_spec_witness :
    recordInterviewFeedback exDbScheduled "T1" 1 { rating := some 6 } =
      (exDbScheduled, .error (.validationError "Rating must be between 1 and 5")) ∧
    (∃ db2 iv, recordInterviewFeedback exDbScheduled "T1" 1 { rating := some 0 } =
        (db2, .ok iv) ∧ iv.rating = exInterview.rating) := by
  constructor
  · exact recordInterviewFeedback_rating_spec.1 exDbScheduled "T1" 1 { rating := some 6 }
      exInterview 6 rfl rfl rfl (by decide) (by decide)
  · exact recordInterviewFeedback_rating_spec.2 exDbScheduled "T1" 1 { rating := some 0 }
      exInterview rfl rfl rfl rfl

/-- Counterexample to C5 as stated: `updateInterview` checks no status
precondition, so the already-`completed` interview of `exDbCompleted` is
still mutated — its date changes. -/
theorem updateInterview_completed_still_mutable :
    exInterviewDone.status = "completed" ∧
    (updateInterview exDbCompleted 1 { date := some "2024-02-02" }).1.interviews.find?
        (fun j => j.id == 1) =
      some ({ exInterviewDone with date := "2024-02-02" }) := by
  exact ⟨rfl, rfl⟩

/-- C5 (amended): `updateInterview` applies every supplied update among
date/time/panel/type/location/status to any existing interview with no
precondition on its current status; in particular an interview whose
status is `completed` is still mutable (it is not immutable after
feedback recording). -/
theorem updateInterview_no_status_precondition
    (db : DB) (iid : Nat) (u : InterviewUpdates) (i : Interview) (d : String)
    (hf : db.interviews.find? (fun j => j.id == iid) = some i)
    (hst : i.status = "completed")
    (hd : u.date = some d) :
    ∃ db2 iv, updateInterview db iid u = (db2, .ok iv) ∧
      iv.date = d ∧ iv.status = u.status.getD "completed" ∧
      db2.interviews.find? (fun j => j.id == iid) = some iv := by
  unfold updateInterview
  rw [hf]
  dsimp only []
  refine ⟨_, _, rfl, by simp [hd], by simp [hst], ?_⟩
  exact find?_set_findIdx _ _ i _ hf (by simpa using List.find?_some hf)

/-- Witness for C5 (amended): the completed interview of `exDbCompleted`
accepts a date edit. -/
theorem updateInterview_no_status_precondition_witness :
    ∃ db2 iv, updateInterview exDbCompleted 1 { date := some "2024-02-02" } = (db2, .ok iv) ∧
      iv.date = "2024-02-02" ∧
      iv.status = (({} : InterviewUpdates).status.getD "completed") ∧
      db2.interviews.find? (fun j => j.id == 1) = some iv := by
  exact updateInterview_no_status_precondition exDbCompleted 1 { date := some "2024-02-02" }
    exInterviewDone "2024-02-02" rfl rfl rfl

/-- Counterexample to C4 as stated: the verification of `exDbVerifPassed`
is terminally `completed_passed`, yet a single `updateBackgroundVerification`
call moves it back to the non-terminal `in_progress`. -/
theorem updateBackgroundVerification_regression :
    exVerificationPassed.status = "completed_passed" ∧
    (updateBackgroundVerification exDbVerifPassed "T2" 1 { status := some "in_progress" }).2 =
      .ok ({ exVerificationPassed with status := "in_progress" }) := by
  exact ⟨rfl, rfl⟩

/-- C4 (amended): `updateBackgroundVerification` overwrites the stored
status with any supplied valid status regardless of the current one — in
particular a non-terminal status (`initiated` or `in_progress`) replaces a
terminal one, so verification status transitions are not monotonic. -/
theorem updateBackgroundVerification_overwrites_status
    (db : DB) (now : String) (vid : Nat) (u : VerificationUpdates)
    (v : BackgroundVerification) (s : String)
    (hf : db.backgroundVerifications.find? (fun w => w.id == vid) = some v)
    (hterm : v.status = "completed_passed" ∨ v.status = "completed_failed")
    (hs : u.status = some s)
    (hnt : s = "initiated" ∨ s = "in_progress") :
    ∃ db2 v2, updateBackgroundVerification db now vid u = (db2, .ok v2) ∧
      v2.status = s ∧
      db2.backgroundVerifications.find? (fun w => w.id == vid) = some v2 := by
  rcases hnt with rfl | rfl
  all_goals (
    unfold updateBackgroundVerification
    rw [hf]
    dsimp only []
    rw [if_neg (by simp [hs, jsTruthyOptStr, validVerificationStatuses]),
      if_neg (by rw [hs]; decide)]
    refine ⟨_, _, rfl, by simp [hs, jsOrStr, jsTruthyOptStr], ?_⟩
    exact find?_set_findIdx _ _ v _ hf (by simpa using List.find?_some hf))

/-- Witness for C4 (amended): the `completed_passed` verification of
`exDbVerifPassed` is overwritten to `in_progress`. -/
theorem updateBackgroundVerification_overwrites_status_witness :
    ∃ db2 v2, updateBackgroundVerification exDbVerifPassed "T2" 1 { status := some "in_progress" } =
        (db2, .ok v2) ∧
      v2.status = "in_progress" ∧
      db2.backgroundVerifications.find? (fun w => w.id == 1) = some v2 := by
  exact updateBackgroundVerification_overwrites_status exDbVerifPassed "T2" 1
    { status := some "in_progress" } exVerificationPassed "in_progress"
    rfl (Or.inl rfl) rfl (Or.inr rfl)

/-- C7: when the verification and its candidate exist, setting the status
to `completed_passed` stamps `completedAt` (non-null) and moves the
candidate to `verified`; setting it to `completed_failed` moves the
candidate to `verification_failed`. -/
theorem updateBackgroundVerification_terminal
    (db : DB) (now : String) (vid : Nat) (u : VerificationUpdates)
    (v : BackgroundVerification) (c : Candidate)
    (hf : db.backgroundVerifications.find? (fun w => w.id == vid) = some v)
    (hc : db.candidates.find? (fun c2 => c2.id == v.candidateId) = some c)
    (hs : u.status = some "completed_passed" ∨ u.status = some "completed_failed") :
    ∃ db2 v2, updateBackgroundVerification db now vid u = (db2, .ok v2) ∧
      v2.completedAt = some now ∧
      db2.backgroundVerifications.find? (fun w => w.id == vid) = some v2 ∧
      db2.candidates.find? (fun c2 => c2.id == v.candidateId) =
        some ({ c with status :=
          if u.status = some "completed_passed" then "verified" else "verification_failed" }) := by
  rcases hs with hs | hs
  all_goals (
    unfold updateBackgroundVerification
    rw [hf]
    dsimp only []
    rw [if_neg (by simp [hs, jsTruthyOptStr, validVerificationStatuses]),
      if_pos (by rw [hs]; decide)]
    obtain ⟨db2, hok, hfound, -, -, -, -, -⟩ :=
      updateCandidateStatus_found db v.candidateId
        (if u.status == some "completed_passed" then "verified" else "verification_failed") c hc
    rw [hok]
    refine ⟨_, _, rfl, rfl, ?_, ?_⟩
    · exact find?_set_findIdx _ _ v _ hf (by simpa using List.find?_some hf)
    · dsimp only []
      rw [hs] at hfound ⊢
      simpa using hfound)

/-- Witness for C7: completing the `in_progress` verification of
`exDbVerifInProgress` as passed stamps `completedAt` and marks candidate 1
`verified`. -/
theorem updateBackgroundVerification_terminal_witness :
    ∃ db2 v2, updateBackgroundVerification exDbVerifInProgress "T3" 1
        { status := some "completed_passed" } = (db2, .ok v2) ∧
      v2.completedAt = some "T3" ∧
      db2.backgroundVerifications.find? (fun w => w.id == 1) = some v2 ∧
      db2.candidates.find? (fun c2 => c2.id == 1) =
        some ({ exCandidate with status := "verified" }) := by
  exact updateBackgroundVerification_terminal exDbVerifInProgress "T3" 1
    { status := some "completed_passed" } exVerificationInProgress
    ({ exCandidate with status := "background_verification" }) rfl rfl (Or.inl rfl)

/-- The dashboard's `averageRating` always equals the spec-side mean fed
through the JavaScript rounding `Math.round(avg * 10) / 10`: both sides
compute the same conditional, so the equation holds case by case. -/
theorem getInterviewDashboard_averageRating_eq (db : DB) :
    (getInterviewDashboard db).averageRating =
      (jsMathRound (specAverageRating db * 10) : Rat) / 10 := by
  unfold getInterviewDashboard specAverageRating ratedInterviews
  dsimp only []
  by_cases h : (db.interviews.filter (fun i => jsTruthyOptInt i.rating)).length = 0
  · rw [if_pos (by simpa using h), if_pos h]
  · rw [if_neg (by simpa using h), if_neg h]

/-- Counterexample to C8 as stated: with ratings 1, 1, 2 the dashboard's
`averageRating` is the rounded value 13/10, not the arithmetic mean 4/3. -/
theorem dashboard_average_not_exact_mean :
    (getInterviewDashboard exDbRatings).averageRating ≠ specAverageRating exDbRatings := by
  rw [getInterviewDashboard_averageRating_eq exDbRatings]
  have hs : specAverageRating exDbRatings = 4 / 3 := by
    unfold specAverageRating
    dsimp only []
    rw [if_neg (by decide)]
    have h1 : ((ratedInterviews exDbRatings).foldl (fun s i => s + i.rating.getD 0) 0 : Int) = 4 := by
      rfl
    have h2 : (ratedInterviews exDbRatings).length = 3 := by rfl
    rw [h1, h2]
    norm_num
  rw [hs]
  norm_num [jsMathRound]

/-- C8 (amended): the dashboard's `averageRating` equals the arithmetic
mean of the ratings over the interviews with a (truthy) rating, rounded to
one decimal digit via `Math.round(avg * 10) / 10`; with zero rated
interviews it is `0` (not NaN/undefined). -/
theorem dashboard_average_rounded (db : DB) :
    (ratedInterviews db = [] → (getInterviewDashboard db).averageRating = 0) ∧
    (ratedInterviews db ≠ [] → (getInterviewDashboard db).averageRating =
      (jsMathRound (specAverageRating db * 10) : Rat) / 10) := by
  constructor
  · intro h
    rw [getInterviewDashboard_averageRating_eq db]
    have hs : specAverageRating db = 0 := by
      unfold specAverageRating
      dsimp only []
      rw [if_pos (show (ratedInterviews db).length = 0 by rw [h]; rfl)]
    rw [hs]
    norm_num [jsMathRound]
  · intro h
    exact getInterviewDashboard_averageRating_eq db

/-- Witness for C8 (amended): the empty store has average 0; the store
with ratings 1, 1, 2 has the rounded average. -/
theorem dashboard_average_rounded_witness :
    (getInterviewDashboard exDbEmpty).averageRating = 0 ∧
    (getInterviewDashboard exDbRatings).averageRating =
      (jsMathRound (specAverageRating exDbRatings * 10) : Rat) / 10 := by
  constructor
  · exact (dashboard_average_rounded exDbEmpty).1 rfl
  · exact (dashboard_average_rounded exDbRatings).2 (by decide)

/-- C10: `getInterviews` returns exactly the stored interviews satisfying
the conjunction of the supplied truthy filters (status equality, exact
date equality, panel membership), in stored order (a single `filter` of
the stored list); a falsy filter value — empty status or date string,
interviewer id 0 — is ignored entirely. -/
theorem getInterviews_filter_semantics :
    (∀ (db : DB) (f : InterviewFilters),
      getInterviews db f = db.interviews.filter (fun i =>
        (!jsTruthyOptStr f.status || (some i.status == f.status)) &&
        ((!jsTruthyOptStr f.date || (some i.date == f.date)) &&
         (!jsTruthyOptNat f.interviewerId || i.panel.contains (f.interviewerId.getD 0))))) ∧
    (∀ (db : DB) (f : InterviewFilters), f.status = some "" →
      getInterviews db f = getInterviews db { f with status := none }) ∧
    (∀ (db : DB) (f : InterviewFilters), f.date = some "" →
      getInterviews db f = getInterviews db { f with date := none }) ∧
    (∀ (db : DB) (f : InterviewFilters), f.interviewerId = some 0 →
      getInterviews db f = getInterviews db { f with interviewerId := none }) := by
  refine ⟨?_, ?_, ?_, ?_⟩
  · intro db f
    unfold getInterviews
    dsimp only []
    by_cases h1 : jsTruthyOptStr f.status <;>
    by_cases h2 : jsTruthyOptStr f.date <;>
    by_cases h3 : jsTruthyOptNat f.interviewerId <;>
    simp [h1, h2, h3, List.filter_filter, Bool.and_comm, Bool.and_left_comm, Bool.and_assoc]
  · intro db f h
    unfold getInterviews
    simp [h, jsTruthyOptStr]
  · intro db f h
    unfold getInterviews
    simp [h, jsTruthyOptStr]
  · intro db f h
    unfold getInterviews
    simp [h, jsTruthyOptNat]

/-- Witness for C10: on the two-interview store, each falsy filter value
behaves exactly like the absent filter. -/
theorem getInterviews_filter_semantics_witness :
    getInterviews exDbTwoInterviews { status := some "" } =
      getInterviews exDbTwoInterviews { status := none } ∧
    getInterviews exDbTwoInterviews { date := some "" } =
      getInterviews exDbTwoInterviews { date := none } ∧
    getInterviews exDbTwoInterviews { interviewerId := some 0 } =
      getInterviews exDbTwoInterviews { interviewerId := none } := by
  refine ⟨?_, ?_, ?_⟩
  · exact getInterviews_filter_semantics.2.1 exDbTwoInterviews { status := some "" } rfl
  · exact getInterviews_filter_semantics.2.2.1 exDbTwoInterviews { date := some "" } rfl
  · exact getInterviews_filter_semantics.2.2.2 exDbTwoInterviews { interviewerId := some 0 } rfl
